import Mathlib

/-!
Verification of the provider-fallback image-generation orchestrator of the
Schnell-Text-to-Image-Generator repository.

The Python sources are shallowly embedded as pure Lean functions:
  * `sanitize_filename` embeds `generate_image.py::sanitize_filename`;
  * `generate_image` embeds the control flow of
    `generate_image.py::generate_image`, with the external world (the two
    provider calls, the random seed draw and the clock) supplied as an
    explicit `ExtWorld` record of one sample per external call site;
  * `index_post` embeds the POST branch of `web_app.py::index`;
  * `delete_image` embeds `web_app.py::delete_image` over a file system
    modelled as a list of resolved absolute paths (component lists);
  * `check_huggingface_status` is modelled from the spec, since the function
    is imported and called by `web_app.py` but absent from the sources.
-/

/-! ## Character classes and string helpers (Python semantics) -/

/-- Python's `\w` character class, restricted to ASCII: letters, digits and
the underscore.  (Python's `\w` additionally matches non-ASCII word
characters; none of the proved properties depend on that difference, since
`/`, `\`, `.` and whitespace are non-word characters in every locale.) -/
def pyIsWordChar (c : Char) : Bool :=
  c.isAlphanum || c = '_'

/-- Python's `\s` character class, restricted to ASCII whitespace. -/
def pyIsSpace (c : Char) : Bool :=
  c = ' ' || c = '\t' || c = '\n' || c = '\r' || c = '\x0b' || c = '\x0c'

/-- Characters kept by the first substitution `re.sub(r'[^\w\s-]', '', text)`
of `sanitize_filename`: word characters, whitespace, and the hyphen. -/
def keptBySub1 (c : Char) : Bool :=
  pyIsWordChar c || pyIsSpace c || c = '-'

/-- Characters matched by the second substitution's class `[-\s]`. -/
def isDashOrSpace (c : Char) : Bool :=
  c = '-' || pyIsSpace c

/-- `re.sub(r'[-\s]+', '_', s)`: every maximal run of hyphens/whitespace is
replaced by a single underscore.  The boolean flag records whether the
previous character was part of such a run. -/
def collapseRuns : Bool → List Char → List Char
  | _, [] => []
  | inRun, c :: cs =>
    if isDashOrSpace c then
      if inRun then collapseRuns true cs
      else '_' :: collapseRuns true cs
    else
      c :: collapseRuns false cs

/-- Python `str.strip(ch)` / `str.strip()` style trimming: drop the matching
characters from both ends of the list. -/
def stripBoth (p : Char → Bool) (l : List Char) : List Char :=
  ((l.dropWhile p).reverse.dropWhile p).reverse

/-- Embeds `generate_image.py::sanitize_filename`:
```
safe = re.sub(r'[^\w\s-]', '', text)
safe = re.sub(r'[-\s]+', '_', safe)
return safe[:max_length].strip('_')
``` -/
def sanitize_filename (text : String) (maxLength : Nat) : String :=
  let safe := text.toList.filter keptBySub1
  let safe := collapseRuns false safe
  String.mk (stripBoth (fun c => c = '_') (safe.take maxLength))

/-- Python `str.lower()`, per character. -/
def pyLower (s : String) : String :=
  String.mk (s.toList.map Char.toLower)

/-- Python `str.strip()` with no argument: trim whitespace from both ends. -/
def pyStrip (s : String) : String :=
  String.mk (stripBoth pyIsSpace s.toList)

/-- `startsWithL n h`: the list `n` is an initial segment of `h`. -/
def startsWithL : List Char → List Char → Bool
  | [], _ => true
  | _ :: _, [] => false
  | a :: as, b :: bs => a = b && startsWithL as bs

/-- `occursIn n h`: the list `n` occurs contiguously inside `h`
(Python's `n in h` on strings). -/
def occursIn (needle : List Char) : List Char → Bool
  | [] => needle.isEmpty
  | c :: rest => startsWithL needle (c :: rest) || occursIn needle rest

/-- Python `needle in hay` for strings. -/
def occursInStr (needle hay : String) : Bool :=
  occursIn needle.toList hay.toList

/-! ## Lemmas about the string helpers -/

theorem head?_dropWhile_not {α : Type} {p : α → Bool} {a : α} :
    ∀ {l : List α}, (l.dropWhile p).head? = some a → p a = false := by
  intro l
  induction l with
  | nil => intro h; simp [List.dropWhile] at h
  | cons b bs ih =>
    intro h
    by_cases hp : p b
    · exact ih (by simpa [List.dropWhile, hp] using h)
    · simp [List.dropWhile, hp] at h
      subst h
      exact Bool.of_not_eq_true hp

theorem stripBoth_subset {p : Char → Bool} {c : Char} {l : List Char}
    (h : c ∈ stripBoth p l) : c ∈ l := by
  unfold stripBoth at h
  rw [List.mem_reverse] at h
  have h1 : c ∈ (l.dropWhile p).reverse := List.dropWhile_subset p h
  rw [List.mem_reverse] at h1
  exact List.dropWhile_subset p h1

theorem stripBoth_length_le (p : Char → Bool) (l : List Char) :
    (stripBoth p l).length ≤ l.length := by
  unfold stripBoth
  calc ((l.dropWhile p).reverse.dropWhile p).reverse.length
      = ((l.dropWhile p).reverse.dropWhile p).length := List.length_reverse _
    _ ≤ (l.dropWhile p).reverse.length := (List.dropWhile_sublist p).length_le
    _ = (l.dropWhile p).length := List.length_reverse _
    _ ≤ l.length := (List.dropWhile_sublist p).length_le

theorem stripBoth_head?_not {p : Char → Bool} {a : Char} {l : List Char}
    (h : (stripBoth p l).head? = some a) : p a = false := by
  unfold stripBoth at h
  set y := l.dropWhile p with hy
  set z := y.reverse.dropWhile p with hzdef
  rcases hzc : z with _ | ⟨b, bs⟩
  · rw [hzc] at h; simp at h
  · have hyz : y = z.reverse ++ (y.reverse.takeWhile p).reverse := by
      have h1 : y.reverse.takeWhile p ++ z = y.reverse := by
        rw [hzdef]; exact List.takeWhile_append_dropWhile p y.reverse
      have h2 := congrArg List.reverse h1
      simpa [List.reverse_append] using h2.symm
    have hne : z.reverse ≠ [] := by rw [hzc]; simp
    have hyhead : y.head? = some a := by
      rw [hyz, List.head?_append_of_ne_nil _ hne]
      exact h
    exact head?_dropWhile_not hyhead

theorem stripBoth_getLast?_not {p : Char → Bool} {a : Char} {l : List Char}
    (h : (stripBoth p l).getLast? = some a) : p a = false := by
  unfold stripBoth at h
  rw [List.getLast?_reverse] at h
  exact head?_dropWhile_not h

theorem mem_collapseRuns {c : Char} :
    ∀ {b : Bool} {l : List Char}, c ∈ collapseRuns b l →
      c = '_' ∨ (c ∈ l ∧ isDashOrSpace c = false) := by
  intro b l
  induction l generalizing b with
  | nil => intro h; simp [collapseRuns] at h
  | cons a as ih =>
    intro h
    by_cases hd : isDashOrSpace a
    · by_cases hb : b
      · subst hb
        simp only [collapseRuns, hd, if_true] at h
        rcases ih h with h1 | ⟨h2, h3⟩
        · exact Or.inl h1
        · exact Or.inr ⟨List.mem_cons_of_mem a h2, h3⟩
      · have hb' : b = false := Bool.of_not_eq_true hb
        subst hb'
        simp only [collapseRuns, hd, if_true] at h
        rcases List.mem_cons.mp h with h1 | h1
        · exact Or.inl h1
        · rcases ih h1 with h2 | ⟨h3, h4⟩
          · exact Or.inl h2
          · exact Or.inr ⟨List.mem_cons_of_mem a h3, h4⟩
    · simp only [collapseRuns, hd, if_false] at h
      rcases List.mem_cons.mp h with h1 | h1
      · subst h1
        exact Or.inr ⟨List.mem_cons_self _ _, Bool.of_not_eq_true hd⟩
      · rcases ih h1 with h2 | ⟨h3, h4⟩
        · exact Or.inl h2
        · exact Or.inr ⟨List.mem_cons_of_mem a h3, h4⟩

theorem sanitize_mem_wordChar {text : String} {maxLength : Nat} {c : Char}
    (h : c ∈ (sanitize_filename text maxLength).toList) : pyIsWordChar c = true := by
  unfold sanitize_filename at h
  have h0 : c ∈ stripBoth (fun c => c = '_')
      ((collapseRuns false (text.toList.filter keptBySub1)).take maxLength) := h
  have h1 : c ∈ (collapseRuns false (text.toList.filter keptBySub1)).take maxLength :=
    stripBoth_subset h0
  have h2 : c ∈ collapseRuns false (text.toList.filter keptBySub1) :=
    List.take_subset _ _ h1
  rcases mem_collapseRuns h2 with h3 | ⟨h4, h5⟩
  · subst h3; simp [pyIsWordChar]
  · have h6 : keptBySub1 c = true := (List.mem_filter.mp h4).2
    unfold keptBySub1 at h6
    unfold isDashOrSpace at h5
    rcases Bool.or_eq_true _ _ |>.mp h6 with h7 | h7
    · rcases Bool.or_eq_true _ _ |>.mp h7 with h8 | h8
      · exact h8
      · exact absurd h8 (by intro hx; simp [hx] at h5)
    · exact absurd h7 (by intro hx; simp [hx] at h5)

/-- C10: For every input string and every non-negative maximum length,
`sanitize_filename` returns a string of length at most `maxLength` whose
characters are all word characters (letters, digits, underscore), with no
leading or trailing underscore; in particular the result contains no path
separator and no dot, so a prompt-derived filename cannot add path
components or change the file extension. -/
theorem sanitize_filename_is_safe_slug (text : String) (maxLength : Nat) :
    (sanitize_filename text maxLength).toList.length ≤ maxLength ∧
    (∀ c ∈ (sanitize_filename text maxLength).toList, pyIsWordChar c = true) ∧
    (sanitize_filename text maxLength).toList.head? ≠ some '_' ∧
    (sanitize_filename text maxLength).toList.getLast? ≠ some '_' ∧
    '/' ∉ (sanitize_filename text maxLength).toList ∧
    '\\' ∉ (sanitize_filename text maxLength).toList ∧
    '.' ∉ (sanitize_filename text maxLength).toList := by
  refine ⟨?_, ?_, ?_, ?_, ?_, ?_, ?_⟩
  · have h1 : (sanitize_filename text maxLength).toList.length ≤
        ((collapseRuns false (text.toList.filter keptBySub1)).take maxLength).length :=
      stripBoth_length_le _ _
    exact le_trans h1 (List.length_take_le _ _)
  · intro c hc
    exact sanitize_mem_wordChar hc
  · intro hcontra
    have h2 : ((fun c => decide (c = '_')) '_') = false :=
      stripBoth_head?_not (p := fun c => decide (c = '_')) hcontra
    simp at h2
  · intro hcontra
    have h2 : ((fun c => decide (c = '_')) '_') = false :=
      stripBoth_getLast?_not (p := fun c => decide (c = '_')) hcontra
    simp at h2
  · intro hmem
    exact absurd (sanitize_mem_wordChar hmem) (by decide)
  · intro hmem
    exact absurd (sanitize_mem_wordChar hmem) (by decide)
  · intro hmem
    exact absurd (sanitize_mem_wordChar hmem) (by decide)

/-! ## Data model of `generate_image.py::generate_image`

The orchestrator's external world is a record of one sample per external
call site: the value `random.randint(0, 2**32-1)` would return, the two
clock readings, and the outcome of each provider call.  The RGBA→RGB
conversion before saving affects only the pixel encoding and no claim, so
image payloads are modelled by their size alone. -/

/-- A JSON scalar as written into the metadata sidecar. -/
inductive JVal where
  | s (v : String)
  | i (v : Int)
deriving DecidableEq, Repr

/-- The arguments of `generate_image(prompt, output_file, width, height,
format, num_inference_steps, seed, model)`.  The function signature has no
fallback-consent parameter. -/
structure GenRequest where
  prompt : String
  output_file : Option String
  width : Int
  height : Int
  fmt : String
  num_inference_steps : Int
  seed : Option Int
  model : String
deriving DecidableEq, Repr

/-- Ambient credentials read from the process environment. -/
structure Env where
  hf_token : Option String
  openai_key : Option String
deriving DecidableEq, Repr

/-- Outcome of the one Hugging Face `client.text_to_image` call:
either an image of the given size, or a raised exception stringified
to `msg`. -/
inductive HFOutcome where
  | success (imageWidth imageHeight : Int)
  | failure (msg : String)
deriving DecidableEq, Repr

/-- Outcome of the OpenAI `images.generate` call together with the download
of the returned URL: either a downloaded image of the given size, or a
raised exception stringified to `msg` (a download failure raises too and is
covered by `failure`). -/
inductive OpenAIOutcome where
  | success (imageWidth imageHeight : Int)
  | failure (msg : String)
deriving DecidableEq, Repr

/-- One sample of every external effect a single `generate_image` call can
consume. -/
structure ExtWorld where
  rngVal : Int
  nowTimestamp : String
  nowIso : String
  hf : HFOutcome
  openai : OpenAIOutcome
deriving DecidableEq, Repr

/-- Final outcome of a `generate_image` call: a saved image with its
metadata sidecar, or a raised `ValueError` with the given message. -/
inductive GenOutcome where
  | ok (service : String) (savedWidth savedHeight : Int)
       (metadata : List (String × JVal))
  | err (msg : String)
deriving DecidableEq, Repr

/-- Observable trace of one `generate_image` call: which providers were
invoked, what was passed to them, and the final outcome.
`hfFailureQuotaClassified` records the boolean computed at line 106
(`'402' in error_msg or 'Payment Required' in error_msg or
'exceeded' in error_msg.lower()`) when the Hugging Face attempt failed. -/
structure GenTrace where
  hfAttempted : Bool
  hfSeedPassed : Option Int
  hfFailureQuotaClassified : Option Bool
  openaiAttempted : Bool
  openaiSizeRequested : Option String
  resampleFilter : Option String
  outcome : GenOutcome
deriving DecidableEq, Repr

/-- The quota/payment classification at `generate_image.py:106`. -/
def isQuotaError (msg : String) : Bool :=
  occursInStr "402" msg || occursInStr "Payment Required" msg ||
    occursInStr "exceeded" (pyLower msg)

/-- `seed = random.randint(0, 2**32-1)` when the caller omitted it;
computed once, before any provider attempt. -/
def chooseSeed (req : GenRequest) (ext : ExtWorld) : Int :=
  match req.seed with
  | some s => s
  | none => ext.rngVal

/-- The last path component (Python `Path.name`) of a path string. -/
def lastComponent (s : String) : String :=
  String.mk ((s.toList.reverse.takeWhile (fun c => c ≠ '/')).reverse)

/-- The output path chosen at lines 38-45: the caller's path when given,
otherwise `output/{timestamp}_{prompt_slug}.{ext}`. -/
def outputFilePath (req : GenRequest) (ext : ExtWorld) : String :=
  match req.output_file with
  | some f => f
  | none =>
    "output/" ++ ext.nowTimestamp ++ "_" ++ sanitize_filename req.prompt 50 ++
      "." ++ pyLower req.fmt

/-- The DALL-E size substitution at lines 133-143, transcribed with the
redundant inner branch of the source. -/
def dalleSize (width height : Int) : String :=
  if width = height then
    if width ≥ 1024 then "1024x1024" else "1024x1024"
  else if width > height then "1792x1024"
  else "1024x1792"

/-- The metadata dict written on the Hugging Face path (lines 83-94). -/
def hfMetadata (req : GenRequest) (seed : Int) (iso fname : String) :
    List (String × JVal) :=
  [("prompt", .s req.prompt),
   ("width", .i req.width),
   ("height", .i req.height),
   ("format", .s req.fmt),
   ("num_inference_steps", .i req.num_inference_steps),
   ("seed", .i seed),
   ("model", .s req.model),
   ("service", .s "huggingface"),
   ("timestamp", .s iso),
   ("filename", .s fname)]

/-- The metadata dict written on the OpenAI path (lines 178-189).  Note the
source omits `num_inference_steps` here and hardcodes the model. -/
def openaiMetadata (req : GenRequest) (seed : Int) (iso fname size : String) :
    List (String × JVal) :=
  [("prompt", .s req.prompt),
   ("width", .i req.width),
   ("height", .i req.height),
   ("format", .s req.fmt),
   ("seed", .i seed),
   ("model", .s "dall-e-3"),
   ("service", .s "openai"),
   ("original_size", .s size),
   ("timestamp", .s iso),
   ("filename", .s fname)]

/-- The OpenAI fallback block of `generate_image` (lines 116-198).  Reached
after the Hugging Face attempt failed, or when it was skipped (no token, or
`dall-e-3` explicitly selected). -/
def tryOpenAI (req : GenRequest) (env : Env) (ext : ExtWorld) (seed : Int)
    (fname : String) (hfAttempted : Bool) (hfSeedPassed : Option Int)
    (hfQuota : Option Bool) : GenTrace :=
  match env.openai_key with
  | none =>
    { hfAttempted := hfAttempted, hfSeedPassed := hfSeedPassed,
      hfFailureQuotaClassified := hfQuota,
      openaiAttempted := false, openaiSizeRequested := none,
      resampleFilter := none,
      outcome := .err "Both HuggingFace and OpenAI failed. No OPENAI_API_KEY found in .env file." }
  | some _ =>
    match ext.openai with
    | .failure msg =>
      { hfAttempted := hfAttempted, hfSeedPassed := hfSeedPassed,
        hfFailureQuotaClassified := hfQuota,
        openaiAttempted := true,
        openaiSizeRequested := some (dalleSize req.width req.height),
        resampleFilter := none,
        outcome := .err ("Both HuggingFace and OpenAI failed. OpenAI error: " ++ msg) }
    | .success iw ih =>
      if iw = req.width ∧ ih = req.height then
        { hfAttempted := hfAttempted, hfSeedPassed := hfSeedPassed,
          hfFailureQuotaClassified := hfQuota,
          openaiAttempted := true,
          openaiSizeRequested := some (dalleSize req.width req.height),
          resampleFilter := none,
          outcome := .ok "openai" iw ih
            (openaiMetadata req seed ext.nowIso fname
              (dalleSize req.width req.height)) }
      else
        { hfAttempted := hfAttempted, hfSeedPassed := hfSeedPassed,
          hfFailureQuotaClassified := hfQuota,
          openaiAttempted := true,
          openaiSizeRequested := some (dalleSize req.width req.height),
          resampleFilter := some "LANCZOS",
          outcome := .ok "openai" req.width req.height
            (openaiMetadata req seed ext.nowIso fname
              (dalleSize req.width req.height)) }

/-- Embeds `generate_image.py::generate_image`: choose the seed and output
path, attempt Hugging Face when a token is present and the model is not
`dall-e-3`, and on any failure (or skip) fall through to the OpenAI block.
The quota classification at line 106 selects only between two log
messages; the control flow after it is identical. -/
def generate_image (req : GenRequest) (env : Env) (ext : ExtWorld) : GenTrace :=
  if env.hf_token.isSome ∧ req.model ≠ "dall-e-3" then
    match ext.hf with
    | .success iw ih =>
      { hfAttempted := true, hfSeedPassed := some (chooseSeed req ext),
        hfFailureQuotaClassified := none,
        openaiAttempted := false, openaiSizeRequested := none,
        resampleFilter := none,
        outcome := .ok "huggingface" iw ih
          (hfMetadata req (chooseSeed req ext) ext.nowIso
            (lastComponent (outputFilePath req ext))) }
    | .failure msg =>
      tryOpenAI req env ext (chooseSeed req ext)
        (lastComponent (outputFilePath req ext)) true
        (some (chooseSeed req ext)) (some (isQuotaError msg))
  else
    tryOpenAI req env ext (chooseSeed req ext)
      (lastComponent (outputFilePath req ext)) false none none

/-! ## Concrete fixtures for the fallback claims -/

/-- A standard request: FLUX model, landscape resolution, fixed seed. -/
def reqStd : GenRequest :=
  { prompt := "robot mural", output_file := none, width := 1344, height := 768,
    fmt := "jpg", num_inference_steps := 4, seed := some 42,
    model := "black-forest-labs/FLUX.1-schnell" }

/-- Both credentials configured. -/
def envBoth : Env :=
  { hf_token := some "hf_x", openai_key := some "sk_x" }

/-- Hugging Face fails with an HTTP 402 (quota/payment) error; the OpenAI
call would succeed at the provider's fixed size. -/
def ext402 : ExtWorld :=
  { rngVal := 7, nowTimestamp := "2026-10-12_10-00-00",
    nowIso := "2026-10-12T10:00:00",
    hf := .failure "402 Client Error: Payment Required",
    openai := .success 1792 1024 }

/-- Hugging Face fails with an error that the line-106 classifier does NOT
mark as quota/payment (no `402`, no `Payment Required`, no `exceeded`). -/
def ext404 : ExtWorld :=
  { rngVal := 7, nowTimestamp := "2026-10-12_10-00-00",
    nowIso := "2026-10-12T10:00:00",
    hf := .failure "404 Client Error: Model not found",
    openai := .success 1792 1024 }

/-- Both providers fail; the primary failure carries a distinctive marker. -/
def extBothFailA : ExtWorld :=
  { rngVal := 7, nowTimestamp := "2026-10-12_10-00-00",
    nowIso := "2026-10-12T10:00:00",
    hf := .failure "HF-PRIMARY-DETAIL 402 Payment Required",
    openai := .failure "boom" }

/-- Same as `extBothFailA` but with a different primary failure message. -/
def extBothFailB : ExtWorld :=
  { rngVal := 7, nowTimestamp := "2026-10-12_10-00-00",
    nowIso := "2026-10-12T10:00:00",
    hf := .failure "some wholly different primary failure",
    openai := .failure "boom" }

/-- C1: the source `generate_image` has no fallback-consent parameter at all
(its caller `web_app.py::index` passes `allow_fallback=`, which the
signature at `generate_image.py:24` does not accept), and on a primary
failure classified as quota/payment it invokes the OpenAI adapter
unconditionally whenever `OPENAI_API_KEY` is set: at the concrete quota
failure below, the primary is attempted, the failure is classified as
quota/payment, and the secondary is attempted nonetheless — no consent is
consulted. -/
theorem generate_attempts_fallback_without_consent :
    (generate_image reqStd envBoth ext402).hfAttempted = true ∧
    (generate_image reqStd envBoth ext402).hfFailureQuotaClassified = some true ∧
    (generate_image reqStd envBoth ext402).openaiAttempted = true := by
  refine ⟨rfl, ?_, rfl⟩
  decide

/-- C2 counterexample: a primary failure NOT classified as quota/payment
(`404 Client Error: Model not found`) still triggers the secondary attempt,
so quota/payment is not the only failure category that can trigger
fallback. -/
theorem non_quota_failure_still_falls_back :
    isQuotaError "404 Client Error: Model not found" = false ∧
    (generate_image reqStd envBoth ext404).hfFailureQuotaClassified = some false ∧
    (generate_image reqStd envBoth ext404).openaiAttempted = true := by
  refine ⟨by decide, by decide, rfl⟩

/-- C2 amended: whenever the primary adapter is attempted (token present,
model not `dall-e-3`) and fails — with any message, hence any
classification — and `OPENAI_API_KEY` is configured, the secondary adapter
is attempted; the line-106 classification selects only between log
messages. -/
theorem any_hf_failure_triggers_fallback (req : GenRequest) (env : Env)
    (ext : ExtWorld) (hhf : env.hf_token.isSome) (hmodel : req.model ≠ "dall-e-3")
    (msg : String) (hfail : ext.hf = .failure msg) (hkey : env.openai_key.isSome) :
    (generate_image req env ext).openaiAttempted = true := by
  unfold generate_image
  rw [if_pos ⟨hhf, hmodel⟩, hfail]
  unfold tryOpenAI
  rcases hk : env.openai_key with _ | k
  · rw [hk] at hkey; simp at hkey
  · rcases ext.openai with ⟨iw, ih⟩ | m
    · by_cases hsz : iw = req.width ∧ ih = req.height
      · simp [hsz]
      · simp [hsz]
    · simp

/-- Witness for `any_hf_failure_triggers_fallback` at a concrete input. -/
theorem any_hf_failure_triggers_fallback_witness :
    (generate_image reqStd envBoth ext404).openaiAttempted = true :=
  any_hf_failure_triggers_fallback reqStd envBoth ext404 (by decide) (by decide)
    "404 Client Error: Model not found" rfl (by decide)

/-- C3 counterexample: when both providers fail, the raised error is a
function of the secondary's message alone — two runs differing only in the
primary's failure message raise the identical error, which quotes only the
secondary's message; so the consolidated error does not describe both
classified failures. -/
theorem consolidated_error_omits_primary_failure :
    (generate_image reqStd envBoth extBothFailA).outcome =
      (generate_image reqStd envBoth extBothFailB).outcome ∧
    (generate_image reqStd envBoth extBothFailA).outcome =
      .err "Both HuggingFace and OpenAI failed. OpenAI error: boom" ∧
    occursInStr "HF-PRIMARY-DETAIL"
      "Both HuggingFace and OpenAI failed. OpenAI error: boom" = false := by
  refine ⟨rfl, rfl, by decide⟩

/-- C3 amended: when the primary adapter is attempted and fails and the
secondary adapter is attempted and also fails, `generate_image` raises the
single error `"Both HuggingFace and OpenAI failed. OpenAI error: " ++ msg2`,
which states that both attempts failed but carries only the secondary's
error detail (the primary's message is only logged). -/
theorem consolidated_error_on_double_failure (req : GenRequest) (env : Env)
    (ext : ExtWorld) (hhf : env.hf_token.isSome) (hmodel : req.model ≠ "dall-e-3")
    (msg1 msg2 : String) (h1 : ext.hf = .failure msg1)
    (hkey : env.openai_key.isSome) (h2 : ext.openai = .failure msg2) :
    (generate_image req env ext).outcome =
      .err ("Both HuggingFace and OpenAI failed. OpenAI error: " ++ msg2) := by
  unfold generate_image
  rw [if_pos ⟨hhf, hmodel⟩, h1]
  unfold tryOpenAI
  rcases hk : env.openai_key with _ | k
  · rw [hk] at hkey; simp at hkey
  · rw [h2]

/-- Witness for `consolidated_error_on_double_failure` at a concrete input. -/
theorem consolidated_error_on_double_failure_witness :
    (generate_image reqStd envBoth extBothFailA).outcome =
      .err "Both HuggingFace and OpenAI failed. OpenAI error: boom" :=
  consolidated_error_on_double_failure reqStd envBoth extBothFailA (by decide)
    (by decide) "HF-PRIMARY-DETAIL 402 Payment Required" "boom" rfl (by decide) rfl

/-! ## Projection and inversion lemmas for the orchestrator -/

theorem tryOpenAI_hfFields (req : GenRequest) (env : Env) (ext : ExtWorld)
    (seed : Int) (fname : String) (hA : Bool) (hS : Option Int) (hQ : Option Bool) :
    (tryOpenAI req env ext seed fname hA hS hQ).hfAttempted = hA ∧
    (tryOpenAI req env ext seed fname hA hS hQ).hfSeedPassed = hS ∧
    (tryOpenAI req env ext seed fname hA hS hQ).hfFailureQuotaClassified = hQ := by
  unfold tryOpenAI
  rcases env.openai_key with _ | k
  · exact ⟨rfl, rfl, rfl⟩
  · rcases ext.openai with ⟨iw, ih⟩ | m
    · by_cases hsz : iw = req.width ∧ ih = req.height
      · simp [hsz]
      · simp [hsz]
    · exact ⟨rfl, rfl, rfl⟩

theorem tryOpenAI_attempted_iff_key (req : GenRequest) (env : Env)
    (ext : ExtWorld) (seed : Int) (fname : String) (hA : Bool) (hS : Option Int)
    (hQ : Option Bool) :
    (tryOpenAI req env ext seed fname hA hS hQ).openaiAttempted =
      env.openai_key.isSome := by
  unfold tryOpenAI
  rcases env.openai_key with _ | k
  · rfl
  · rcases ext.openai with ⟨iw, ih⟩ | m
    · by_cases hsz : iw = req.width ∧ ih = req.height
      · simp [hsz]
      · simp [hsz]
    · rfl

theorem tryOpenAI_ok_inv {req : GenRequest} {env : Env} {ext : ExtWorld}
    {seed : Int} {fname : String} {hA : Bool} {hS : Option Int} {hQ : Option Bool}
    {sv : String} {iw ih : Int} {md : List (String × JVal)}
    (h : (tryOpenAI req env ext seed fname hA hS hQ).outcome = .ok sv iw ih md) :
    sv = "openai" ∧
    md = openaiMetadata req seed ext.nowIso fname
          (dalleSize req.width req.height) := by
  unfold tryOpenAI at h
  split at h
  · simp at h
  · split at h
    · simp at h
    · split at h
      · simp only [GenOutcome.ok.injEq] at h
        exact ⟨h.1.symm, h.2.2.2.symm⟩
      · simp only [GenOutcome.ok.injEq] at h
        exact ⟨h.1.symm, h.2.2.2.symm⟩

theorem generate_ok_inv {req : GenRequest} {env : Env} {ext : ExtWorld}
    {sv : String} {iw ih : Int} {md : List (String × JVal)}
    (h : (generate_image req env ext).outcome = .ok sv iw ih md) :
    (sv = "huggingface" ∧
      md = hfMetadata req (chooseSeed req ext) ext.nowIso
            (lastComponent (outputFilePath req ext))) ∨
    (sv = "openai" ∧
      md = openaiMetadata req (chooseSeed req ext) ext.nowIso
            (lastComponent (outputFilePath req ext))
            (dalleSize req.width req.height)) := by
  unfold generate_image at h
  by_cases hc : env.hf_token.isSome ∧ req.model ≠ "dall-e-3"
  · rw [if_pos hc] at h
    rcases hhf : ext.hf with ⟨w2, h2⟩ | m
    · rw [hhf] at h
      simp at h
      exact Or.inl ⟨h.1.symm, h.2.2.2.symm⟩
    · rw [hhf] at h
      exact Or.inr (tryOpenAI_ok_inv h)
  · rw [if_neg hc] at h
    exact Or.inr (tryOpenAI_ok_inv h)

/-- Service name of a final outcome, when it succeeded. -/
def GenOutcome.serviceName : GenOutcome → Option String
  | .ok sv _ _ _ => some sv
  | .err _ => none

/-- Sidecar keys of a final outcome, when it succeeded. -/
def GenOutcome.metadataKeys : GenOutcome → Option (List String)
  | .ok _ _ _ md => some (md.map Prod.fst)
  | .err _ => none

/-- The redundant inner branch of `dalleSize` collapses to the three-way
mapping stated by the spec. -/
theorem dalleSize_eq (w h : Int) :
    dalleSize w h =
      (if w = h then "1024x1024"
       else if w > h then "1792x1024" else "1024x1792") := by
  unfold dalleSize
  by_cases h1 : w = h
  · rw [if_pos h1, if_pos h1]
    split <;> rfl
  · rw [if_neg h1, if_neg h1]

theorem tryOpenAI_none_eq (req : GenRequest) (env : Env) (ext : ExtWorld)
    (seed : Int) (fname : String) (hA0 : Bool) (hS : Option Int) (hQ : Option Bool)
    (hk : env.openai_key = none) :
    tryOpenAI req env ext seed fname hA0 hS hQ =
      { hfAttempted := hA0, hfSeedPassed := hS, hfFailureQuotaClassified := hQ,
        openaiAttempted := false, openaiSizeRequested := none,
        resampleFilter := none,
        outcome := .err "Both HuggingFace and OpenAI failed. No OPENAI_API_KEY found in .env file." } := by
  unfold tryOpenAI
  rw [hk]

theorem tryOpenAI_fail_eq (req : GenRequest) (env : Env) (ext : ExtWorld)
    (seed : Int) (fname : String) (hA0 : Bool) (hS : Option Int) (hQ : Option Bool)
    (k m : String) (hk : env.openai_key = some k) (ho : ext.openai = .failure m) :
    tryOpenAI req env ext seed fname hA0 hS hQ =
      { hfAttempted := hA0, hfSeedPassed := hS, hfFailureQuotaClassified := hQ,
        openaiAttempted := true,
        openaiSizeRequested := some (dalleSize req.width req.height),
        resampleFilter := none,
        outcome := .err ("Both HuggingFace and OpenAI failed. OpenAI error: " ++ m) } := by
  unfold tryOpenAI
  rw [hk, ho]

theorem tryOpenAI_noresize_eq (req : GenRequest) (env : Env) (ext : ExtWorld)
    (seed : Int) (fname : String) (hA0 : Bool) (hS : Option Int) (hQ : Option Bool)
    (k : String) (iw ih : Int) (hk : env.openai_key = some k)
    (ho : ext.openai = .success iw ih) (hsz : iw = req.width ∧ ih = req.height) :
    tryOpenAI req env ext seed fname hA0 hS hQ =
      { hfAttempted := hA0, hfSeedPassed := hS, hfFailureQuotaClassified := hQ,
        openaiAttempted := true,
        openaiSizeRequested := some (dalleSize req.width req.height),
        resampleFilter := none,
        outcome := .ok "openai" iw ih
          (openaiMetadata req seed ext.nowIso fname (dalleSize req.width req.height)) } := by
  unfold tryOpenAI
  rw [hk, ho]
  show (if iw = req.width ∧ ih = req.height then _ else _) = _
  rw [if_pos hsz]

theorem tryOpenAI_resize_eq (req : GenRequest) (env : Env) (ext : ExtWorld)
    (seed : Int) (fname : String) (hA0 : Bool) (hS : Option Int) (hQ : Option Bool)
    (k : String) (iw ih : Int) (hk : env.openai_key = some k)
    (ho : ext.openai = .success iw ih) (hsz : ¬(iw = req.width ∧ ih = req.height)) :
    tryOpenAI req env ext seed fname hA0 hS hQ =
      { hfAttempted := hA0, hfSeedPassed := hS, hfFailureQuotaClassified := hQ,
        openaiAttempted := true,
        openaiSizeRequested := some (dalleSize req.width req.height),
        resampleFilter := some "LANCZOS",
        outcome := .ok "openai" req.width req.height
          (openaiMetadata req seed ext.nowIso fname (dalleSize req.width req.height)) } := by
  unfold tryOpenAI
  rw [hk, ho]
  show (if iw = req.width ∧ ih = req.height then _ else _) = _
  rw [if_neg hsz]

theorem generate_hf_success_eq (req : GenRequest) (env : Env) (ext : ExtWorld)
    (a b : Int) (hc : env.hf_token.isSome ∧ req.model ≠ "dall-e-3")
    (hhf : ext.hf = .success a b) :
    generate_image req env ext =
      { hfAttempted := true, hfSeedPassed := some (chooseSeed req ext),
        hfFailureQuotaClassified := none,
        openaiAttempted := false, openaiSizeRequested := none,
        resampleFilter := none,
        outcome := .ok "huggingface" a b
          (hfMetadata req (chooseSeed req ext) ext.nowIso
            (lastComponent (outputFilePath req ext))) } := by
  unfold generate_image
  rw [if_pos hc, hhf]

theorem generate_hf_failure_eq (req : GenRequest) (env : Env) (ext : ExtWorld)
    (m : String) (hc : env.hf_token.isSome ∧ req.model ≠ "dall-e-3")
    (hhf : ext.hf = .failure m) :
    generate_image req env ext =
      tryOpenAI req env ext (chooseSeed req ext)
        (lastComponent (outputFilePath req ext)) true
        (some (chooseSeed req ext)) (some (isQuotaError m)) := by
  unfold generate_image
  rw [if_pos hc, hhf]

theorem generate_skip_eq (req : GenRequest) (env : Env) (ext : ExtWorld)
    (hc : ¬(env.hf_token.isSome ∧ req.model ≠ "dall-e-3")) :
    generate_image req env ext =
      tryOpenAI req env ext (chooseSeed req ext)
        (lastComponent (outputFilePath req ext)) false none none := by
  unfold generate_image
  rw [if_neg hc]

/-- Hugging Face succeeds at the requested size. -/
def extHFOk : ExtWorld :=
  { rngVal := 7, nowTimestamp := "2026-10-12_10-00-00",
    nowIso := "2026-10-12T10:00:00",
    hf := .success 1344 768,
    openai := .success 1792 1024 }

/-- Same as `reqStd` but with the seed omitted by the caller. -/
def reqNoSeed : GenRequest :=
  { reqStd with seed := none }

/-- C4 counterexample: a successful generation served by the OpenAI
fallback produces a sidecar whose keys do NOT include
`num_inference_steps` (the dict literal at lines 178-189 omits it), so not
every persisted sidecar contains that field. -/
theorem openai_sidecar_lacks_steps_field :
    (generate_image reqStd envBoth ext402).outcome.serviceName = some "openai" ∧
    ((generate_image reqStd envBoth ext402).outcome.metadataKeys).map
      (fun ks => ks.contains "num_inference_steps") = some false := by
  exact ⟨rfl, rfl⟩

/-- C4 amended: a sidecar written on the Hugging Face path carries exactly
the keys prompt, width, height, format, num_inference_steps, seed, model,
service, timestamp, filename; a sidecar written on the OpenAI path carries
exactly prompt, width, height, format, seed, model, service, original_size,
timestamp, filename — i.e. all claimed fields except `num_inference_steps`,
plus `original_size`. -/
theorem sidecar_fields_by_service (req : GenRequest) (env : Env) (ext : ExtWorld) :
    (∀ iw ih md, (generate_image req env ext).outcome = .ok "huggingface" iw ih md →
      md.map Prod.fst = ["prompt", "width", "height", "format",
        "num_inference_steps", "seed", "model", "service", "timestamp",
        "filename"]) ∧
    (∀ iw ih md, (generate_image req env ext).outcome = .ok "openai" iw ih md →
      md.map Prod.fst = ["prompt", "width", "height", "format", "seed",
        "model", "service", "original_size", "timestamp", "filename"]) := by
  constructor
  · intro iw ih md hok
    rcases generate_ok_inv hok with ⟨_, hmd⟩ | ⟨hsv, _⟩
    · rw [hmd]; rfl
    · exact absurd hsv (by decide)
  · intro iw ih md hok
    rcases generate_ok_inv hok with ⟨hsv, _⟩ | ⟨_, hmd⟩
    · exact absurd hsv (by decide)
    · rw [hmd]; rfl

/-- Witness for `sidecar_fields_by_service` at concrete runs through both
providers. -/
theorem sidecar_fields_by_service_witness :
    (hfMetadata reqStd 42 "2026-10-12T10:00:00"
        "2026-10-12_10-00-00_robot_mural.jpg").map Prod.fst =
      ["prompt", "width", "height", "format", "num_inference_steps", "seed",
        "model", "service", "timestamp", "filename"] ∧
    (openaiMetadata reqStd 42 "2026-10-12T10:00:00"
        "2026-10-12_10-00-00_robot_mural.jpg" "1792x1024").map Prod.fst =
      ["prompt", "width", "height", "format", "seed", "model", "service",
        "original_size", "timestamp", "filename"] :=
  ⟨(sidecar_fields_by_service reqStd envBoth extHFOk).1 1344 768 _ rfl,
   (sidecar_fields_by_service reqStd envBoth ext402).2 1344 768 _ rfl⟩

theorem tryOpenAI_size_contract (req : GenRequest) (env : Env) (ext : ExtWorld)
    (seed : Int) (fname : String) (hA0 : Bool) (hS : Option Int) (hQ : Option Bool)
    (iw ih : Int)
    (hA : (tryOpenAI req env ext seed fname hA0 hS hQ).openaiAttempted = true)
    (hs : ext.openai = .success iw ih) :
    (tryOpenAI req env ext seed fname hA0 hS hQ).openaiSizeRequested =
      some (dalleSize req.width req.height) ∧
    (∃ md, (tryOpenAI req env ext seed fname hA0 hS hQ).outcome =
        .ok "openai" req.width req.height md ∧
      md.lookup "original_size" = some (.s (dalleSize req.width req.height))) ∧
    (tryOpenAI req env ext seed fname hA0 hS hQ).resampleFilter =
      (if iw = req.width ∧ ih = req.height then none else some "LANCZOS") := by
  have hkey : env.openai_key.isSome := by
    rw [← tryOpenAI_attempted_iff_key req env ext seed fname hA0 hS hQ]
    exact hA
  rcases hk : env.openai_key with _ | k
  · rw [hk] at hkey; simp at hkey
  · by_cases hsz : iw = req.width ∧ ih = req.height
    · rw [tryOpenAI_noresize_eq req env ext seed fname hA0 hS hQ k iw ih hk hs hsz]
      refine ⟨rfl, ⟨openaiMetadata req seed ext.nowIso fname
        (dalleSize req.width req.height), ?_, rfl⟩, by rw [if_pos hsz]⟩
      rw [hsz.1, hsz.2]
    · rw [tryOpenAI_resize_eq req env ext seed fname hA0 hS hQ k iw ih hk hs hsz]
      exact ⟨rfl, ⟨openaiMetadata req seed ext.nowIso fname
        (dalleSize req.width req.height), rfl, rfl⟩, by rw [if_neg hsz]⟩

/-- C5: whenever a request is served by the OpenAI adapter, the requested
`(width, height)` is mapped to `1024x1024` when width equals height,
`1792x1024` when width exceeds height and `1024x1792` otherwise; the
generation request to the provider uses that fixed size; the saved image
has exactly the requested `(width, height)`, a `LANCZOS` resampling resize
happening precisely when the downloaded size differs from the requested
one; and the sidecar records the substituted size under `original_size`. -/
theorem openai_adapter_size_contract (req : GenRequest) (env : Env)
    (ext : ExtWorld) (iw ih : Int)
    (hA : (generate_image req env ext).openaiAttempted = true)
    (hs : ext.openai = .success iw ih) :
    (generate_image req env ext).openaiSizeRequested =
      some (if req.width = req.height then "1024x1024"
            else if req.width > req.height then "1792x1024"
            else "1024x1792") ∧
    (∃ md, (generate_image req env ext).outcome =
        .ok "openai" req.width req.height md ∧
      md.lookup "original_size" =
        some (.s (if req.width = req.height then "1024x1024"
                  else if req.width > req.height then "1792x1024"
                  else "1024x1792"))) ∧
    (generate_image req env ext).resampleFilter =
      (if iw = req.width ∧ ih = req.height then none else some "LANCZOS") := by
  rw [← dalleSize_eq]
  by_cases hc : env.hf_token.isSome ∧ req.model ≠ "dall-e-3"
  · cases hhf : ext.hf with
    | success a b =>
      rw [generate_hf_success_eq req env ext a b hc hhf] at hA
      simp at hA
    | failure m =>
      rw [generate_hf_failure_eq req env ext m hc hhf] at hA ⊢
      exact tryOpenAI_size_contract req env ext (chooseSeed req ext)
        (lastComponent (outputFilePath req ext)) true (some (chooseSeed req ext))
        (some (isQuotaError m)) iw ih hA hs
  · rw [generate_skip_eq req env ext hc] at hA ⊢
    exact tryOpenAI_size_contract req env ext (chooseSeed req ext)
      (lastComponent (outputFilePath req ext)) false none none iw ih hA hs

/-- Witness for `openai_adapter_size_contract`: a 1344×768 request served by
the fallback maps to 1792×1024, is resized with LANCZOS, and records
`original_size = "1792x1024"`. -/
theorem openai_adapter_size_contract_witness :
    (generate_image reqStd envBoth ext402).openaiSizeRequested =
      some "1792x1024" ∧
    (∃ md, (generate_image reqStd envBoth ext402).outcome =
        .ok "openai" 1344 768 md ∧
      md.lookup "original_size" = some (.s "1792x1024")) ∧
    (generate_image reqStd envBoth ext402).resampleFilter = some "LANCZOS" := by
  have h := openai_adapter_size_contract reqStd envBoth ext402 1792 1024 rfl rfl
  simpa using h

/-- C8: when the caller omits the seed, `generate_image` draws it exactly
once, before any provider attempt (`chooseSeed` consumes the single
`random.randint` sample of the call); that same value is what the Hugging
Face attempt receives whenever one is made, and it is the value recorded
under `seed` in the persisted sidecar, whichever provider succeeded. -/
theorem seed_chosen_once_and_recorded (req : GenRequest) (env : Env)
    (ext : ExtWorld) (hseed : req.seed = none) :
    ((generate_image req env ext).hfAttempted = true →
      (generate_image req env ext).hfSeedPassed = some ext.rngVal) ∧
    (∀ sv iw ih md, (generate_image req env ext).outcome = .ok sv iw ih md →
      md.lookup "seed" = some (.i ext.rngVal)) := by
  have hcs : chooseSeed req ext = ext.rngVal := by
    unfold chooseSeed; rw [hseed]
  constructor
  · intro hA
    by_cases hc : env.hf_token.isSome ∧ req.model ≠ "dall-e-3"
    · cases hhf : ext.hf with
      | success a b =>
        rw [generate_hf_success_eq req env ext a b hc hhf, hcs]
      | failure m =>
        rw [generate_hf_failure_eq req env ext m hc hhf,
          (tryOpenAI_hfFields req env ext (chooseSeed req ext)
            (lastComponent (outputFilePath req ext)) true
            (some (chooseSeed req ext)) (some (isQuotaError m))).2.1, hcs]
    · rw [generate_skip_eq req env ext hc,
        (tryOpenAI_hfFields req env ext (chooseSeed req ext)
          (lastComponent (outputFilePath req ext)) false none none).1] at hA
      cases hA
  · intro sv iw ih md hok
    rcases generate_ok_inv hok with ⟨_, hmd⟩ | ⟨_, hmd⟩
    · rw [hmd, hcs]; rfl
    · rw [hmd, hcs]; rfl

/-- Witness for `seed_chosen_once_and_recorded`: with the seed omitted the
draw 7 is passed to Hugging Face and recorded in the sidecar. -/
theorem seed_chosen_once_and_recorded_witness :
    (generate_image reqNoSeed envBoth extHFOk).hfSeedPassed = some 7 ∧
    (hfMetadata reqNoSeed 7 "2026-10-12T10:00:00"
      "2026-10-12_10-00-00_robot_mural.jpg").lookup "seed" = some (.i 7) :=
  ⟨(seed_chosen_once_and_recorded reqNoSeed envBoth extHFOk rfl).1 rfl,
   (seed_chosen_once_and_recorded reqNoSeed envBoth extHFOk rfl).2
     "huggingface" 1344 768 _ rfl⟩

/-! ## The web front end: POST handler and delete (web_app.py) -/

/-- Embeds `web_app.py::build_output_filename`: timestamped name with the
sanitized prompt slug, `"image"` when the slug is empty. -/
def build_output_filename (prompt extension : String) (ext : ExtWorld) : String :=
  "output/" ++ ext.nowTimestamp ++ "_" ++
    (if sanitize_filename prompt 50 = "" then "image"
     else sanitize_filename prompt 50) ++ "." ++ extension

/-- The form fields parsed by `web_app.py::index` on POST. -/
structure WebForm where
  prompt : String
  width : Int
  height : Int
  steps : Int
  seed : Option Int
  fmt : String
  model : String
  allow_fallback : Bool
deriving DecidableEq, Repr

/-- Result rendered by the POST branch of `index` against the staged
sources.  The success branch (lines 332-339) is unreachable: the call at
`web_app.py:330` passes `allow_fallback=`, a keyword the signature at
`generate_image.py:24` does not accept, so the call itself raises
`TypeError` before the function body — hence before any provider call —
and the `except Exception` at `web_app.py:341` renders it as the
"Could not generate image: {exc}" error. -/
inductive WebResult where
  | validationError (msg : String)
  | generationError (msg : String)
deriving DecidableEq, Repr

/-- The stringified `TypeError` raised when `index` calls
`generate_image(..., allow_fallback=...)` against `generate_image.py:24`.
The text comes from the Python runtime, which additionally quotes the
keyword name; the quote characters are omitted here and no claim depends
on the exact wording. -/
def allowFallbackTypeError : String :=
  "generate_image() got an unexpected keyword argument allow_fallback"

/-- Embeds the POST branch of `web_app.py::index` (lines 314-342): the only
local validation is `if not prompt.strip()`; when it passes, the handler
builds the output path and calls `generate_image` with the
`allow_fallback=` keyword, which raises `TypeError` at call-binding time
(before the callee runs, so before any seed draw or provider call); the
handler catches it and shows the generation error. -/
def index_post (form : WebForm) (env : Env) (ext : ExtWorld) : WebResult :=
  if pyStrip form.prompt = "" then .validationError "Prompt must not be empty."
  else .generationError ("Could not generate image: " ++ allowFallbackTypeError)

/-- A form whose width is zero (non-positive) with a non-empty prompt. -/
def formZeroWidth : WebForm :=
  { prompt := "robot mural", width := 0, height := 768, steps := 4,
    seed := some 42, fmt := "jpg",
    model := "black-forest-labs/FLUX.1-schnell", allow_fallback := false }

/-- A form whose prompt is whitespace only. -/
def formBlankPrompt : WebForm :=
  { prompt := "   ", width := 1344, height := 768, steps := 4,
    seed := some 42, fmt := "jpg",
    model := "black-forest-labs/FLUX.1-schnell", allow_fallback := false }

/-- A direct `generate_image` request that violates both of the claim's
validity premises: empty prompt and non-positive width. -/
def reqInvalid : GenRequest :=
  { prompt := "", output_file := none, width := 0, height := 768,
    fmt := "jpg", num_inference_steps := 4, seed := some 42,
    model := "black-forest-labs/FLUX.1-schnell" }

/-- C7 counterexample: `generate_image` itself performs no local validation
at all.  At a request whose prompt is empty after trimming AND whose width
is non-positive — the claim's own premises — the primary provider call is
still attempted, and the run even succeeds; no local VALIDATION error
occurs before the network call.  This is the direct call path of
`generate_image` (`generate_image.py:212` and any caller). -/
theorem validation_free_generate_reaches_provider :
    pyStrip reqInvalid.prompt = "" ∧
    reqInvalid.width ≤ 0 ∧
    (generate_image reqInvalid envBoth extHFOk).hfAttempted = true ∧
    (∃ md, (generate_image reqInvalid envBoth extHFOk).outcome =
      .ok "huggingface" 1344 768 md) :=
  ⟨by decide, by decide, rfl, _, rfl⟩

/-- C7 amended: the web handler rejects a prompt that is empty after
trimming with the local VALIDATION error before any call to
`generate_image`; every other POST also stops before any provider call,
but with the caught TypeError of the `allow_fallback` keyword mismatch
rather than a validation error — dimensions are never validated, and
`generate_image` itself validates nothing (see the counterexample for its
direct call path). -/
theorem index_post_local_checks (form : WebForm) (env : Env) (ext : ExtWorld) :
    (pyStrip form.prompt = "" →
      index_post form env ext = .validationError "Prompt must not be empty.") ∧
    (pyStrip form.prompt ≠ "" →
      index_post form env ext =
        .generationError ("Could not generate image: " ++ allowFallbackTypeError)) := by
  constructor
  · intro h
    unfold index_post
    rw [if_pos h]
  · intro h
    unfold index_post
    rw [if_neg h]

/-- Witness for `index_post_local_checks`: a whitespace-only prompt is
rejected with the validation error, and a non-blank POST (even one with
width 0) fails with the caught TypeError. -/
theorem index_post_local_checks_witness :
    index_post formBlankPrompt envBoth extHFOk =
      .validationError "Prompt must not be empty." ∧
    index_post formZeroWidth envBoth extHFOk =
      .generationError ("Could not generate image: " ++ allowFallbackTypeError) :=
  ⟨(index_post_local_checks formBlankPrompt envBoth extHFOk).1 (by decide),
   (index_post_local_checks formZeroWidth envBoth extHFOk).2 (by decide)⟩

/-- `Path.resolve()` on component lists: `..` pops, `.` is dropped (symlinks
out of scope).  `acc` holds the already-resolved absolute components. -/
def resolveComps : List String → List String → List String
  | acc, [] => acc
  | acc, c :: cs =>
    if c = ".." then resolveComps acc.dropLast cs
    else if c = "." then resolveComps acc cs
    else resolveComps (acc ++ [c]) cs

/-- `Path("output").resolve()` against the working directory `cwd`. -/
def outputRoot (cwd : List String) : List String :=
  resolveComps [] (cwd ++ ["output"])

/-- `(Path("output") / filename).resolve()`: `filename` is the relative
path from the route, as components. -/
def resolvedTarget (cwd filename : List String) : List String :=
  resolveComps [] (cwd ++ ["output"] ++ filename)

/-- Python `PurePath.stem`: the name minus its suffix; the suffix is from
the last dot only when that dot is neither the first nor the last
character. -/
def stemOf (cs : List Char) : List Char :=
  if (cs.reverse.takeWhile (fun c => c ≠ '.')).length < cs.length then
    if 0 < cs.length - 1 - (cs.reverse.takeWhile (fun c => c ≠ '.')).length ∧
        cs.length - 1 - (cs.reverse.takeWhile (fun c => c ≠ '.')).length <
          cs.length - 1 then
      cs.take (cs.length - 1 - (cs.reverse.takeWhile (fun c => c ≠ '.')).length)
    else cs
  else cs

/-- Python `Path.with_suffix('.json')` on one name component. -/
def withSuffixJson (name : String) : String :=
  String.mk (stemOf name.toList) ++ ".json"

/-- The resolved path of `image_path.with_suffix('.json')`. -/
def sidecarPath (p : List String) : List String :=
  p.dropLast ++ [withSuffixJson ((p.getLast?).getD "")]

/-- HTTP-level outcome of `web_app.py::delete_image`: 400 Invalid file
path, 404 Image file not found, or 200 success.  The handler's `try` wraps
the whole body, so no exception escapes; the embedding is a total function
into these outcomes. -/
inductive DeleteOutcome where
  | invalidPath
  | notFound
  | deleted
deriving DecidableEq, Repr

/-- Embeds `web_app.py::delete_image` (lines 376-404) over a file system
modelled as the list of resolved absolute file paths: the traversal guard
(`is_relative_to` on resolved paths) runs first, then the existence check,
then the image is unlinked and the sidecar unlinked if present. -/
def delete_image (cwd filename : List String) (fs : List (List String)) :
    DeleteOutcome × List (List String) :=
  if (resolvedTarget cwd filename).take (outputRoot cwd).length ≠ outputRoot cwd then
    (.invalidPath, fs)
  else if resolvedTarget cwd filename ∉ fs then
    (.notFound, fs)
  else if sidecarPath (resolvedTarget cwd filename) ∈
      fs.erase (resolvedTarget cwd filename) then
    (.deleted, (fs.erase (resolvedTarget cwd filename)).erase
      (sidecarPath (resolvedTarget cwd filename)))
  else
    (.deleted, fs.erase (resolvedTarget cwd filename))

theorem not_mem_erase_self {α : Type} [BEq α] [LawfulBEq α] {a : α}
    {l : List α} (h : l.Nodup) : a ∉ l.erase a := by
  intro hmem
  by_cases hal : a ∈ l
  · obtain ⟨l₁, l₂, ha1, heq, herase⟩ := List.exists_erase_eq hal
    rw [herase] at hmem
    rcases List.mem_append.mp hmem with h1 | h2
    · exact ha1 h1
    · rw [heq] at h
      have h3 : (a :: l₂).Nodup :=
        (List.sublist_append_right l₁ (a :: l₂)).nodup h
      exact (List.nodup_cons.mp h3).1 h2
  · rw [List.erase_of_not_mem hal] at hmem
    exact hal hmem

/-- C6: for every `delete(filename)` call, (a) a filename whose resolved
path lies outside the storage directory (e.g. one with a leading `../`) is
rejected with the Invalid-file-path response and the file system is
untouched; (b) when the path is inside the storage directory but the image
is absent, the call fails with the Not-found response and the file system
is untouched; (c) when the image exists it is deleted, the sidecar is
deleted when present (its absence is not an error — the outcome is success
either way), and no other file is touched.  The handler's `try/except`
means no exception crosses the boundary; the embedding is total over these
three outcomes. -/
theorem delete_image_contract (cwd filename : List String)
    (fs : List (List String)) :
    ((resolvedTarget cwd filename).take (outputRoot cwd).length ≠
        outputRoot cwd →
      delete_image cwd filename fs = (.invalidPath, fs)) ∧
    ((resolvedTarget cwd filename).take (outputRoot cwd).length =
        outputRoot cwd →
      resolvedTarget cwd filename ∉ fs →
      delete_image cwd filename fs = (.notFound, fs)) ∧
    ((resolvedTarget cwd filename).take (outputRoot cwd).length =
        outputRoot cwd →
      resolvedTarget cwd filename ∈ fs → fs.Nodup →
      (delete_image cwd filename fs).1 = .deleted ∧
      resolvedTarget cwd filename ∉ (delete_image cwd filename fs).2 ∧
      sidecarPath (resolvedTarget cwd filename) ∉
        (delete_image cwd filename fs).2 ∧
      (delete_image cwd filename fs).2 ⊆ fs ∧
      (∀ p ∈ fs, p ≠ resolvedTarget cwd filename →
        p ≠ sidecarPath (resolvedTarget cwd filename) →
        p ∈ (delete_image cwd filename fs).2)) := by
  refine ⟨?_, ?_, ?_⟩
  · intro hout
    unfold delete_image
    rw [if_pos hout]
  · intro hin habs
    unfold delete_image
    rw [if_neg (fun hne => hne hin), if_pos habs]
  · intro hin hmem hnd
    unfold delete_image
    rw [if_neg (fun hne => hne hin), if_neg (fun habs => habs hmem)]
    by_cases hj : sidecarPath (resolvedTarget cwd filename) ∈
        fs.erase (resolvedTarget cwd filename)
    · rw [if_pos hj]
      refine ⟨rfl, ?_, ?_, ?_, ?_⟩
      · intro hx
        exact not_mem_erase_self hnd (List.mem_of_mem_erase hx)
      · exact not_mem_erase_self (hnd.sublist (List.erase_sublist _ _))
      · intro p hp
        exact List.erase_subset _ _ (List.erase_subset _ _ hp)
      · intro p hp hpt hpj
        exact (List.mem_erase_of_ne hpj).mpr ((List.mem_erase_of_ne hpt).mpr hp)
    · rw [if_neg hj]
      refine ⟨rfl, not_mem_erase_self hnd, hj, ?_, ?_⟩
      · intro p hp
        exact List.erase_subset _ _ hp
      · intro p hp hpt _
        exact (List.mem_erase_of_ne hpt).mpr hp

/-- The working directory and a three-file store used for the delete
witness. -/
def cwd0 : List String := ["home", "user", "app"]

/-- A store holding one image, its sidecar, and an unrelated file outside
the storage directory. -/
def fs0 : List (List String) :=
  [["home", "user", "app", "output", "a.jpg"],
   ["home", "user", "app", "output", "a.json"],
   ["home", "user", "app", "secret.txt"]]

/-- Witness for `delete_image_contract`: a `../` filename is rejected with
no mutation, a missing image yields not-found, and deleting `a.jpg` removes
the image and its sidecar while keeping the unrelated file. -/
theorem delete_image_contract_witness :
    delete_image cwd0 ["..", "secret.txt"] fs0 = (.invalidPath, fs0) ∧
    delete_image cwd0 ["missing.jpg"] fs0 = (.notFound, fs0) ∧
    (delete_image cwd0 ["a.jpg"] fs0).1 = .deleted ∧
    ["home", "user", "app", "output", "a.jpg"] ∉
      (delete_image cwd0 ["a.jpg"] fs0).2 ∧
    ["home", "user", "app", "output", "a.json"] ∉
      (delete_image cwd0 ["a.jpg"] fs0).2 ∧
    ["home", "user", "app", "secret.txt"] ∈
      (delete_image cwd0 ["a.jpg"] fs0).2 :=
  ⟨(delete_image_contract cwd0 ["..", "secret.txt"] fs0).1 (by decide),
   (delete_image_contract cwd0 ["missing.jpg"] fs0).2.1 (by decide) (by decide),
   ((delete_image_contract cwd0 ["a.jpg"] fs0).2.2 (by decide) (by decide)
     (by decide)).1,
   ((delete_image_contract cwd0 ["a.jpg"] fs0).2.2 (by decide) (by decide)
     (by decide)).2.1,
   ((delete_image_contract cwd0 ["a.jpg"] fs0).2.2 (by decide) (by decide)
     (by decide)).2.2.1,
   ((delete_image_contract cwd0 ["a.jpg"] fs0).2.2 (by decide) (by decide)
     (by decide)).2.2.2.2 ["home", "user", "app", "secret.txt"] (by decide)
     (by decide) (by decide)⟩

/-! ## The status probe (modelled from the spec) -/

/-- Modelled from the spec: the failure taxonomy of §4.1's ErrorClassifier.
TRANSIENT is "network-level errors not matching the above", treated
identically to FATAL by every consumer in the design, and a substring
classifier cannot separate them, so the model collapses the default bucket
into `fatal` (the spec's mandated default). -/
inductive ErrCategory where
  | quotaOrPayment
  | rateLimited
  | fatal
deriving DecidableEq, Repr

/-- Outcome of the probe's minimal provider call. -/
inductive ProbeOutcome where
  | ok
  | fail (msg : String)
deriving DecidableEq, Repr

/-- The JSON object returned by `check_status(model)`. -/
structure StatusResult where
  status : String
  message : Option String
deriving DecidableEq, Repr

/-- Modelled from the spec: §4.1's classifier — quota/payment on an HTTP
402, a payment-required or a quota-exceeded message (the same patterns as
`generate_image.py:106`), rate-limited on an HTTP 429 throttling signal,
and FATAL as the tolerant default for everything unrecognized. -/
def classify_error (msg : String) : ErrCategory :=
  if isQuotaError msg then .quotaOrPayment
  else if occursInStr "429" msg then .rateLimited
  else .fatal

/-- Status mapping of a failed probe: QUOTA_OR_PAYMENT and RATE_LIMITED map
to "limit"; anything else maps to "error" with the raw message truncated to
a bounded length (200 characters, matching the source's log truncation at
`generate_image.py:110`). -/
def statusOfFailure (msg : String) : StatusResult :=
  match classify_error msg with
  | .quotaOrPayment => { status := "limit", message := none }
  | .rateLimited => { status := "limit", message := none }
  | .fatal => { status := "error",
                message := some (String.mk (msg.toList.take 200)) }

/-- Modelled from the spec: `check_huggingface_status` is imported by
`web_app.py` from `generate_image` and called by the `/api_status` route,
but no definition exists in `src/generate_image.py`.  Per §4.5, the probe
performs the cheapest possible call against the chosen provider and maps
success to "available" and failures through the classifier. -/
def check_huggingface_status (model : String) (probe : ProbeOutcome) :
    StatusResult :=
  match probe with
  | .ok => { status := "available", message := none }
  | .fail msg => statusOfFailure msg

/-- C9: the status probe returns "available" when the minimal call
succeeds, "limit" when the failure is classified QUOTA_OR_PAYMENT or
RATE_LIMITED, and "error" with a message of bounded length (at most 200
characters) in every other case. -/
theorem check_status_classification (model : String) (probe : ProbeOutcome) :
    (probe = .ok → check_huggingface_status model probe =
      { status := "available", message := none }) ∧
    (∀ msg, probe = .fail msg →
      (classify_error msg = .quotaOrPayment ∨
        classify_error msg = .rateLimited) →
      check_huggingface_status model probe =
        { status := "limit", message := none }) ∧
    (∀ msg, probe = .fail msg → classify_error msg = .fatal →
      (check_huggingface_status model probe).status = "error" ∧
      ∃ m, (check_huggingface_status model probe).message = some m ∧
        m.length ≤ 200) := by
  refine ⟨?_, ?_, ?_⟩
  · intro h
    rw [h]
    rfl
  · intro msg h hcat
    rw [h]
    show statusOfFailure msg = _
    unfold statusOfFailure
    rcases hcat with hc | hc <;> rw [hc]
  · intro msg h hcat
    rw [h]
    refine ⟨?_, String.mk (msg.toList.take 200), ?_, ?_⟩
    · show (statusOfFailure msg).status = "error"
      unfold statusOfFailure
      rw [hcat]
    · show (statusOfFailure msg).message = _
      unfold statusOfFailure
      rw [hcat]
    · show (msg.toList.take 200).length ≤ 200
      exact List.length_take_le _ _

/-- Witness for `check_status_classification` on a success, a 402 failure
and an unclassified failure. -/
theorem check_status_classification_witness :
    check_huggingface_status "black-forest-labs/FLUX.1-schnell" .ok =
      { status := "available", message := none } ∧
    check_huggingface_status "black-forest-labs/FLUX.1-schnell"
      (.fail "402 Payment Required") = { status := "limit", message := none } ∧
    (check_huggingface_status "black-forest-labs/FLUX.1-schnell"
      (.fail "boom")).status = "error" :=
  ⟨(check_status_classification "black-forest-labs/FLUX.1-schnell" .ok).1 rfl,
   (check_status_classification "black-forest-labs/FLUX.1-schnell"
     (.fail "402 Payment Required")).2.1 "402 Payment Required" rfl
     (Or.inl (by decide)),
   ((check_status_classification "black-forest-labs/FLUX.1-schnell"
     (.fail "boom")).2.2 "boom" rfl (by decide)).1⟩
